import Mathlib

/-!
Shallow embedding of the inventory-pipeline provisioning scripts
(`infra/scripts/setup.py`, `infra/scripts/teardown.py`) and of the three
compute handlers (`lambda_function/*/lambda_handler.py`), together with
theorems settling the specification claims.

The remote cloud provider is modelled as an explicit state (`Infra.World`):
every control-plane call of the scripts becomes a pure state transformer,
error paths (Python exceptions, `sys.exit`) become `Except` values, and
Python truthiness / string operations are modelled explicitly.
-/

set_option autoImplicit false

/-- `strContains hay needle`: Python's `needle in hay` on strings
(substring containment). -/
def strContains (hay needle : String) : Bool :=
  decide (needle.data <:+: hay.data)

namespace Infra

/-! ### Constants of `setup.py` (lines 20-31) and `teardown.py` (lines 13-22) -/

def INGEST_BUCKET_BASE : String := "inventory-uploads"
def WEB_BUCKET_BASE : String := "inventory-web"
def TABLE_NAME : String := "Inventory"
def SNS_TOPIC_BASE : String := "NoStock"
def LAMBDA_A_NAME : String := "load_inventory"
def LAMBDA_B_NAME : String := "get_inventory_api"
def LAMBDA_C_NAME : String := "notify_low_stock"
def ROLE_NAME : String := "LabRole"

/-- `teardown.py` line 16. -/
def BUCKET_PREFIXES : List String := ["inventory-uploads-", "inventory-web-"]
/-- `teardown.py` line 18. -/
def SNS_TOPIC_PREFIX : String := "NoStock-"
/-- `teardown.py` line 19. -/
def LAMBDA_PREFIXES : List String :=
  ["load_inventory-", "get_inventory_api-", "notify_low_stock-"]

/-! ### Resource names built in `setup.py.__main__` (lines 357-365, 418) -/

def ingestBucketName (suffix : String) : String :=
  INGEST_BUCKET_BASE ++ "-" ++ suffix
def webBucketName (suffix : String) : String :=
  WEB_BUCKET_BASE ++ "-" ++ suffix
def lambdaAName (suffix : String) : String := LAMBDA_A_NAME ++ "-" ++ suffix
def lambdaBName (suffix : String) : String := LAMBDA_B_NAME ++ "-" ++ suffix
def lambdaCName (suffix : String) : String := LAMBDA_C_NAME ++ "-" ++ suffix
def apiName (suffix : String) : String := "inventory-api-" ++ suffix
/-- `setup.py` line 362: `topic_name = SNS_TOPIC_BASE` — no suffix appended. -/
def topicName : String := SNS_TOPIC_BASE

/-- All resource names a provisioning run with suffix `s` creates or reuses
(its two buckets, the table, the topic, the three handlers, the HTTP API). -/
def runResourceNames (suffix : String) : List String :=
  [ingestBucketName suffix, webBucketName suffix, TABLE_NAME, topicName,
   lambdaAName suffix, lambdaBName suffix, lambdaCName suffix, apiName suffix]

/-- A name carries the deployment suffix when the suffix occurs in it. -/
def carriesSuffix (name suffix : String) : Bool :=
  strContains name suffix

/-! ### The bucket existence probe (`setup.py` lines 49-57) -/

/-- Outcome of `s3.head_bucket`: success, or a `ClientError` with a
provider error code (e.g. `"404"` not found, `"403"` forbidden). -/
inductive HeadResult where
  | ok : HeadResult
  | clientError (code : String) : HeadResult
deriving DecidableEq

/-- `bucket_exists` of `setup.py`: `head_bucket` in a `try`; on a
`ClientError` with code `'404'` return `False`, and return `False` for
any other `ClientError` as well (the final `return False`). -/
def bucket_exists (r : HeadResult) : Bool :=
  match r with
  | .ok => true
  | .clientError code => if code == "404" then false else false

end Infra

/-- `p.startswith(q)` of Python, on the underlying character lists. -/
def strStartsWith (s p : String) : Bool :=
  decide (p.data <+: s.data)

/-- `s.endswith(p)` of Python, on the underlying character lists. -/
def strEndsWith (s p : String) : Bool :=
  decide (p.data <:+ s.data)

/-- `s.split(c)` of Python on a single-character separator, over character
lists (splitting on every occurrence, keeping empty fields). -/
def splitOnChar (c : Char) : List Char → List (List Char)
  | [] => [[]]
  | x :: xs =>
    match splitOnChar c xs with
    | [] => [[]]
    | y :: ys => if x = c then [] :: y :: ys else (x :: y) :: ys

namespace Infra

/-! ### The provider state

The remote services are modelled as one explicit state: the set of
buckets, tables, topics (as ARNs), lambda functions, event-source
mappings and HTTP APIs, plus the local registry file of `setup.py`
(`aws_resources.db`). Fresh provider-assigned identifiers (mapping UUIDs,
API ids) are drawn from counters. -/

def REGION : String := "us-east-1"
def ACCOUNT_ID : String := "123456789012"

/-- One Lambda event-source mapping, as created/updated by
`ensure_dynamodb_stream_trigger` (`setup.py` lines 313-342). -/
structure Mapping where
  uuid : Nat
  eventSourceArn : String
  functionName : String
  enabled : Bool
  batchSize : Nat
  startingPosition : String
deriving DecidableEq

structure World where
  buckets : List String
  tables : List String
  topicArns : List String
  lambdas : List String
  mappings : List Mapping
  apis : List (Nat × String)
  registryFile : Bool
  nextUuid : Nat
  nextApiId : Nat
deriving DecidableEq

def World.empty : World :=
  { buckets := [], tables := [], topicArns := [], lambdas := [],
    mappings := [], apis := [], registryFile := false,
    nextUuid := 0, nextApiId := 0 }

def topicArnOf (name : String) : String :=
  "arn:aws:sns:" ++ REGION ++ ":" ++ ACCOUNT_ID ++ ":" ++ name

/-- `s3.head_bucket` against the modelled provider: `404` when absent. -/
def head_bucket (w : World) (name : String) : HeadResult :=
  if w.buckets.contains name then .ok else .clientError "404"

/-- `create_bucket` (`setup.py` lines 59-67). -/
def create_bucket (w : World) (name : String) : World :=
  { w with buckets := w.buckets ++ [name] }

/-- `ensure_bucket` (`setup.py` lines 102-117); the website/BPA/policy
configuration touches no resource the claims quantify over and is not
modelled. -/
def ensure_bucket (w : World) (name : String) : World :=
  if bucket_exists (head_bucket w name) then w else create_bucket w name

/-- `ensure_dynamodb_table` (`setup.py` lines 136-162): create unless
`ResourceInUseException` (modelled by the membership test), wait until
active, then describe; returns `(world, TableArn, LatestStreamArn)`. -/
def ensure_dynamodb_table (w : World) (name : String) :
    World × String × String :=
  let w' := if w.tables.contains name then w
            else { w with tables := w.tables ++ [name] }
  (w',
   "arn:aws:dynamodb:" ++ REGION ++ ":" ++ ACCOUNT_ID ++ ":table/" ++ name,
   "arn:aws:dynamodb:" ++ REGION ++ ":" ++ ACCOUNT_ID ++ ":table/" ++ name
     ++ "/stream/2024-01-01")

/-- `ensure_sns_topic_and_subscribe` (`setup.py` lines 271-310): reuse the
first listed topic whose ARN ends with `":" ++ name`, else create it; the
email subscription changes no resource the claims mention. -/
def ensure_sns_topic_and_subscribe (w : World) (name : String) :
    World × String :=
  match w.topicArns.find? (fun t => strEndsWith t (":" ++ name)) with
  | some arn => (w, arn)
  | none =>
      let arn := topicArnOf name
      ({ w with topicArns := w.topicArns ++ [arn] }, arn)

/-- `ensure_lambda` (`setup.py` lines 182-215): create, and on
`ResourceConflictException` update code and configuration in place (which
leaves the set of function names unchanged). -/
def ensure_lambda (w : World) (functionName : String) : World :=
  if w.lambdas.contains functionName then w
  else { w with lambdas := w.lambdas ++ [functionName] }

/-- `lambda_client.list_event_source_mappings(EventSourceArn=…,
FunctionName=…)`. -/
def list_event_source_mappings (w : World) (stream fn : String) :
    List Mapping :=
  w.mappings.filter
    (fun m => m.eventSourceArn == stream && m.functionName == fn)

/-- The in-place field update performed by
`lambda_client.update_event_source_mapping(UUID=…, Enabled=…, BatchSize=…)`. -/
def esmUpd (uuid : Nat) (enabled : Bool) (batchSize : Nat) (m : Mapping) :
    Mapping :=
  if m.uuid == uuid then { m with enabled := enabled, batchSize := batchSize }
  else m

def update_event_source_mapping (w : World) (uuid : Nat) (enabled : Bool)
    (batchSize : Nat) : World :=
  { w with mappings := w.mappings.map (esmUpd uuid enabled batchSize) }

/-- `lambda_client.create_event_source_mapping(… StartingPosition='LATEST')`,
returning the fresh mapping UUID. -/
def create_event_source_mapping (w : World) (stream fn : String)
    (enabled : Bool) (batchSize : Nat) : World × Nat :=
  let u := w.nextUuid
  ({ w with
      mappings := w.mappings ++
        [{ uuid := u, eventSourceArn := stream, functionName := fn,
           enabled := enabled, batchSize := batchSize,
           startingPosition := "LATEST" }],
      nextUuid := u + 1 }, u)

/-- `ensure_dynamodb_stream_trigger` (`setup.py` lines 313-342): if a
mapping for the (stream, function) pair exists, update its enabled and
batch-size fields in place and return its UUID, else create one with
starting position `LATEST`. -/
def ensure_dynamodb_stream_trigger (w : World) (stream fn : String)
    (enabled : Bool) (batchSize : Nat) : World × Nat :=
  match list_event_source_mappings w stream fn with
  | m :: _ => (update_event_source_mapping w m.uuid enabled batchSize, m.uuid)
  | [] => create_event_source_mapping w stream fn enabled batchSize

/-- `apigw_client.create_api` (`setup.py` lines 418-427): issued
unconditionally — no lookup of an existing API precedes it. -/
def create_api (w : World) (name : String) : World × Nat :=
  let i := w.nextApiId
  ({ w with apis := w.apis ++ [(i, name)], nextApiId := i + 1 }, i)

/-- Outcome of `iam.get_role(RoleName=ROLE_NAME)`. -/
inductive RoleLookup where
  | found (arn : String)
  | noSuchEntity
  | otherError (code : String)
deriving DecidableEq

/-- `labrole_arn` (`setup.py` lines 120-133): return the ARN; on the
`NoSuchEntity` client error, `sys.exit` with the critical message; re-raise
any other client error. -/
def labrole_arn : RoleLookup → Except String String
  | .found arn => .ok arn
  | .noSuchEntity =>
      .error ("❌ ERROR CRÍTICO: El rol fijo '" ++ ROLE_NAME ++
        "' no fue encontrado. Verifica su nombre o tus permisos. No se puede continuar.")
  | .otherError code => .error code

structure Env where
  roleLookup : RoleLookup

/-- The `shelve` write at the end of `__main__` (`setup.py` lines 504-517). -/
def saveRegistry (w : World) : World := { w with registryFile := true }

/-- `__main__` of `setup.py` (lines 356-527) as a state transformer: the
role lookup runs first and aborts the run on failure; afterwards the
resources are ensured in program order. Trigger permissions, API routes,
integration, stage and the `index.html` upload touch no resource kind the
claims quantify over and are not modelled. -/
def provisionMain (env : Env) (w0 : World) (suffix : String) :
    World × Except String Unit :=
  match labrole_arn env.roleLookup with
  | .error e => (w0, .error e)
  | .ok _roleArn =>
      let td := ensure_dynamodb_table w0 TABLE_NAME
      let w := td.1
      let streamArn := td.2.2
      let ts := ensure_sns_topic_and_subscribe w topicName
      let w := ts.1
      let w := ensure_bucket w (ingestBucketName suffix)
      let w := ensure_bucket w (webBucketName suffix)
      let w := ensure_lambda w (lambdaAName suffix)
      let w := ensure_lambda w (lambdaBName suffix)
      let w := ensure_lambda w (lambdaCName suffix)
      let es := ensure_dynamodb_stream_trigger w streamArn
        (lambdaCName suffix) true 10
      let w := es.1
      let ca := create_api w (apiName suffix)
      let w := ca.1
      let w := saveRegistry w
      (w, .ok ())

/-! ### `teardown.py` -/

/-- The bucket loop of `teardown.py.__main__` (lines 179-187) for one
prefix: every bucket whose name starts with the prefix is emptied and
deleted by `delete_bucket_globally`. -/
def delete_buckets_with_prefix (w : World) (p : String) : World :=
  { w with buckets := w.buckets.filter (fun b => !(strStartsWith b p)) }

/-- The lambda loop (lines 192-201) for one prefix: every function whose
name starts with the prefix is deleted by `delete_lambda_globally`, which
first deletes the event-source mappings bound to that function. -/
def delete_lambdas_with_prefix (w : World) (p : String) : World :=
  { w with
    lambdas := w.lambdas.filter (fun f => !(strStartsWith f p)),
    mappings := w.mappings.filter
      (fun m => !(strStartsWith m.functionName p)) }

/-- `delete_dynamodb_table` (`teardown.py` lines 119-132). -/
def delete_dynamodb_table (w : World) (name : String) : World :=
  { w with tables := w.tables.filter (fun t => !(t == name)) }

/-- `topic_arn.split(':')[-1]` (`teardown.py` line 214). -/
def topicNameOfArn (arn : String) : String :=
  String.mk ((splitOnChar ':' arn.data).getLastD [])

/-- The SNS loop (`teardown.py` lines 210-218): delete every topic whose
name (last ARN component) starts with `SNS_TOPIC_PREFIX`. -/
def delete_sns_topics_with_prefix (w : World) (p : String) : World :=
  { w with
    topicArns := w.topicArns.filter
      (fun arn => !(strStartsWith (topicNameOfArn arn) p)) }

/-- The shared execution role: its identity, the managed policies attached
to it and its inline policies. -/
structure Role where
  name : String
  present : Bool
  attachedPolicies : List String
  inlinePolicies : List String
deriving DecidableEq

/-- The inline-policy naming convention tested on `teardown.py` line 160. -/
def isWorkflowInlinePolicy (p : String) : Bool :=
  strStartsWith p "PolicyA-" || strStartsWith p "PolicyB-" ||
    strStartsWith p "PolicyC-"

/-- `delete_iam_policies` (`teardown.py` lines 146-166): detach exactly the
attached managed policies whose name contains `AWSLambdaBasicExecutionRole`,
delete exactly the inline policies matching the workflow prefixes; the role
itself is never deleted. -/
def delete_iam_policies (r : Role) : Role :=
  { r with
    attachedPolicies := r.attachedPolicies.filter
      (fun p => !(strContains p "AWSLambdaBasicExecutionRole")),
    inlinePolicies := r.inlinePolicies.filter
      (fun p => !(isWorkflowInlinePolicy p)) }

/-- `os.remove(DB_PATH)` (`teardown.py` lines 227-232). -/
def removeRegistry (w : World) : World := { w with registryFile := false }

/-- `__main__` of `teardown.py` (lines 171-234): buckets by prefix, lambdas
by prefix (with their mappings), the table, topics by prefix, the role's
policies, then the local registry file. -/
def teardownMain (w0 : World) (role : Role) : World × Role :=
  let w := BUCKET_PREFIXES.foldl delete_buckets_with_prefix w0
  let w := LAMBDA_PREFIXES.foldl delete_lambdas_with_prefix w
  let w := delete_dynamodb_table w TABLE_NAME
  let w := delete_sns_topics_with_prefix w SNS_TOPIC_PREFIX
  let role' := delete_iam_policies role
  let w := removeRegistry w
  (w, role')

end Infra

namespace GetInventoryApi

/-! ### `lambda_function/get_inventory_api/lambda_handler.py` -/

/-- A value as `boto3`'s DynamoDB resource returns it: strings, `Decimal`
numbers (modelled as exact rationals), lists and dicts. -/
inductive DVal where
  | str : String → DVal
  | dec : Rat → DVal
  | list : List DVal → DVal
  | dict : List (String × DVal) → DVal

/-- A JSON value after `convert_decimal`: every number is either an
integer or a floating-point (non-integral) number. -/
inductive JVal where
  | str : String → JVal
  | int : Int → JVal
  | float : Rat → JVal
  | list : List JVal → JVal
  | dict : List (String × JVal) → JVal

mutual

/-- `convert_decimal` (lines 11-20): recurse through lists and dicts; a
`Decimal` becomes `int(obj)` when `obj % 1 == 0` (the value is integral,
i.e. its reduced denominator is 1) and `float(obj)` otherwise. -/
def convert_decimal : DVal → JVal
  | .str s => .str s
  | .dec q => if q.den = 1 then .int q.num else .float q
  | .list l => .list (convertList l)
  | .dict d => .dict (convertDict d)

/-- The list comprehension branch of `convert_decimal`. -/
def convertList : List DVal → List JVal
  | [] => []
  | v :: vs => convert_decimal v :: convertList vs

/-- The dict comprehension branch of `convert_decimal`. -/
def convertDict : List (String × DVal) → List (String × JVal)
  | [] => []
  | (k, v) :: kvs => (k, convert_decimal v) :: convertDict kvs

end

mutual

/-- Numeric values are normalized: every `float` in the tree is
non-integral (an integral decimal would have become an `int`). -/
def jvalNormalized : JVal → Bool
  | .str _ => true
  | .int _ => true
  | .float q => decide (q.den ≠ 1)
  | .list l => jvalNormalizedList l
  | .dict d => jvalNormalizedDict d

def jvalNormalizedList : List JVal → Bool
  | [] => true
  | v :: vs => jvalNormalized v && jvalNormalizedList vs

def jvalNormalizedDict : List (String × JVal) → Bool
  | [] => true
  | (_, v) :: kvs => jvalNormalized v && jvalNormalizedDict kvs

end

/-- One table row as the handler reads it: a dict of attribute name to
value. -/
abbrev Item := List (String × DVal)

/-- The partition-key comparison `Key("Store").eq(store)` performs on an
item's `Store` attribute: a string attribute equal to `store`. -/
def dvalIsStr (v : Option DVal) (s : String) : Bool :=
  match v with
  | some (.str t) => t == s
  | _ => false

/-- `table.query(KeyConditionExpression=Key("Store").eq(store))`: the rows
whose partition key `Store` equals `store`. -/
def queryByStore (tbl : List Item) (store : String) : List Item :=
  tbl.filter (fun it => dvalIsStr (it.lookup "Store") store)

/-- `table.scan()`: all rows. -/
def scan (tbl : List Item) : List Item := tbl

/-- The HTTP request event: an optional `pathParameters` dict
(`event.get("pathParameters", {})`). -/
structure GetEvent where
  pathParameters : Option (List (String × String))

/-- Python truthiness of `store` (`None` or a string) in `if store:`. -/
def truthy : Option String → Bool
  | none => false
  | some s => !(s == "")

structure Response where
  statusCode : Nat
  body : JVal

/-- `lambda_handler` (lines 22-41): take the optional path parameter
`store`; if truthy, query by partition-key equality, else scan; convert
decimals; return status 200 with the JSON array as body. -/
def lambda_handler (tbl : List Item) (event : GetEvent) : Response :=
  let store := (event.pathParameters.getD []).lookup "store"
  let items := if truthy store then queryByStore tbl (store.getD "")
               else scan tbl
  { statusCode := 200, body := convert_decimal (.list (items.map .dict)) }

end GetInventoryApi

namespace LoadInventory

/-! ### `lambda_function/load_inventory/lambda_handler.py` -/

/-- One table row written by `table.put_item`. -/
structure TableItem where
  Store : String
  Item : String
  Count : Int
deriving DecidableEq

/-- `table.put_item`: upsert by the composite key (Store, Item). -/
def put_item (tbl : List TableItem) (x : TableItem) : List TableItem :=
  tbl.filter (fun y => !(y.Store == x.Store && y.Item == x.Item)) ++ [x]

/-- A `csv.DictReader` row: header field ↦ field value. -/
abbrev Row := List (String × String)

/-- Splitting one CSV line on commas (no quoting appears in the data the
handler ingests). -/
def splitCSVLine (line : String) : List String :=
  (splitOnChar ',' line.data).map String.mk

/-- `csv.DictReader(content)`: the first line is the header; every further
line becomes a dict pairing header fields with the line's fields. -/
def dictReader (lines : List String) : List Row :=
  match lines with
  | [] => []
  | header :: rest =>
      rest.map (fun line => (splitCSVLine header).zip (splitCSVLine line))

/-- The value of a nonempty all-digit character list, else `none`. -/
def digitsVal (l : List Char) : Option Nat :=
  match l with
  | [] => none
  | _ =>
    l.foldl (fun acc c =>
      match acc with
      | none => none
      | some n =>
          if c.isDigit then some (n * 10 + (c.toNat - '0'.toNat)) else none)
      (some 0)

/-- Python's `int(...)` on a string: an optional minus sign followed by
digits, `none` (a `ValueError`) otherwise. -/
def pyInt (s : String) : Option Int :=
  match s.data with
  | '-' :: ds => (digitsVal ds).map (fun n => -(n : Int))
  | ds => (digitsVal ds).map (fun n => (n : Int))

/-- The body of the row loop (lines 23-29): read `row["store"]`,
`row["item"]`, `int(row["count"])`; a missing column (`KeyError`) or a
non-numeric count (`ValueError`) raises, i.e. yields `none`. -/
def parseRow (row : Row) : Option TableItem :=
  match row.lookup "store", row.lookup "item", row.lookup "count" with
  | some st, some it, some c => (pyInt c).map (fun n => ⟨st, it, n⟩)
  | _, _, _ => none

/-- The row loop: write each parsed row in order; on the first malformed
row stop with the raised error, keeping every write already made. -/
def processRows : List TableItem → List Row → List TableItem × Except String Unit
  | tbl, [] => (tbl, .ok ())
  | tbl, r :: rs =>
    match parseRow r with
    | some x => processRows (put_item tbl x) rs
    | none => (tbl, .error "row error")

/-- One storage-object-created event record (`record["s3"]`). -/
structure S3Record where
  bucket : String
  key : String

/-- `lambda_handler` (lines 9-36): for each record, fetch the object's
lines, parse them with the reader and write the rows; the `except` clause
re-raises the first error, aborting the batch. `objects` maps
(bucket, key) to the object's text lines. -/
def lambda_handler (objects : String → String → List String) :
    List TableItem → List S3Record → List TableItem × Except String Unit
  | tbl, [] => (tbl, .ok ())
  | tbl, rec :: recs =>
    match processRows tbl (dictReader (objects rec.bucket rec.key)) with
    | (tbl', .ok _) => lambda_handler objects tbl' recs
    | (tbl', .error e) => (tbl', .error e)

end LoadInventory

namespace NotifyLowStock

/-! ### `lambda_function/notify_low_stock/lambda_handler.py` -/

/-- One DynamoDB-stream record as the notifier reads it: `eventName`, and
the `NewImage` attributes `Item.S`, `Store.S` and `Count.N` (the numeric
string already parsed by `int(...)`, carried here as the integer). -/
structure StreamRecord where
  eventName : String
  item : String
  store : String
  count : Int
deriving DecidableEq

/-- The message built on line 12 of the notifier. -/
def lowStockMsg (r : StreamRecord) : String :=
  "⚠️ Low stock: " ++ r.item ++ " in " ++ r.store ++
    " (" ++ toString r.count ++ " left)"

/-- `lambda_handler` of the notifier, returning the list of messages
published to the topic, in publication order: for each record, if
`eventName == "INSERT"` and `int(NewImage.Count.N) < 5`, publish one
formatted message. -/
def lambda_handler (records : List StreamRecord) : List String :=
  records.flatMap (fun r =>
    if r.eventName == "INSERT" && r.count < 5 then [lowStockMsg r] else [])

end NotifyLowStock

/-! ## Theorems -/

/-- **C1.** Provision-then-decommission round trip, evaluated at a concrete
run: the buckets, the three handlers with their mappings, the table and the
registry file are all gone, but the topic — created under the base name
`NoStock` — is *not* matched by the decommissioner's prefix `NoStock-`
(`"NoStock".startswith("NoStock-")` is false) and survives the teardown,
contradicting the zero-resources round-trip property. -/
theorem C1_topic_survives_roundtrip :
    (((Infra.teardownMain
        (Infra.provisionMain ⟨.found "arn:aws:iam::123456789012:role/LabRole"⟩
          Infra.World.empty "20250101-abcdef").1
        { name := Infra.ROLE_NAME, present := true,
          attachedPolicies := [], inlinePolicies := [] }).1).buckets = [] ∧
     ((Infra.teardownMain
        (Infra.provisionMain ⟨.found "arn:aws:iam::123456789012:role/LabRole"⟩
          Infra.World.empty "20250101-abcdef").1
        { name := Infra.ROLE_NAME, present := true,
          attachedPolicies := [], inlinePolicies := [] }).1).lambdas = [] ∧
     ((Infra.teardownMain
        (Infra.provisionMain ⟨.found "arn:aws:iam::123456789012:role/LabRole"⟩
          Infra.World.empty "20250101-abcdef").1
        { name := Infra.ROLE_NAME, present := true,
          attachedPolicies := [], inlinePolicies := [] }).1).mappings = [] ∧
     ((Infra.teardownMain
        (Infra.provisionMain ⟨.found "arn:aws:iam::123456789012:role/LabRole"⟩
          Infra.World.empty "20250101-abcdef").1
        { name := Infra.ROLE_NAME, present := true,
          attachedPolicies := [], inlinePolicies := [] }).1).tables = [] ∧
     ((Infra.teardownMain
        (Infra.provisionMain ⟨.found "arn:aws:iam::123456789012:role/LabRole"⟩
          Infra.World.empty "20250101-abcdef").1
        { name := Infra.ROLE_NAME, present := true,
          attachedPolicies := [], inlinePolicies := [] }).1).registryFile = false) ∧
    ((Infra.teardownMain
        (Infra.provisionMain ⟨.found "arn:aws:iam::123456789012:role/LabRole"⟩
          Infra.World.empty "20250101-abcdef").1
        { name := Infra.ROLE_NAME, present := true,
          attachedPolicies := [], inlinePolicies := [] }).1).topicArns =
      [Infra.topicArnOf Infra.SNS_TOPIC_BASE] ∧
    strStartsWith (Infra.topicNameOfArn (Infra.topicArnOf Infra.SNS_TOPIC_BASE))
      Infra.SNS_TOPIC_PREFIX = false := by
  decide

/-- **C8.** If the role lookup reports `NoSuchEntity`, the provisioning run
terminates with an error and the provider state is exactly the initial one:
no resource-creating call was issued. -/
theorem C8_missing_role_aborts_untouched (env : Infra.Env)
    (w : Infra.World) (suffix : String)
    (h : env.roleLookup = .noSuchEntity) :
    (Infra.provisionMain env w suffix).1 = w ∧
    ∃ e, (Infra.provisionMain env w suffix).2 = .error e := by
  cases env with
  | mk rl => cases h; exact ⟨rfl, ⟨_, rfl⟩⟩

/-- Witness for C8 at a concrete environment and world. -/
theorem C8_missing_role_aborts_untouched_witness :
    (Infra.provisionMain ⟨.noSuchEntity⟩ Infra.World.empty "20250101-abcdef").1
      = Infra.World.empty ∧
    ∃ e, (Infra.provisionMain ⟨.noSuchEntity⟩ Infra.World.empty
      "20250101-abcdef").2 = .error e :=
  C8_missing_role_aborts_untouched ⟨.noSuchEntity⟩ Infra.World.empty
    "20250101-abcdef" rfl

/-- Any name built as `base ++ suffix` carries the suffix. -/
theorem carriesSuffix_append (base s : String) :
    Infra.carriesSuffix (base ++ s) s = true := by
  have h : s.data <:+: base.data ++ s.data :=
    (List.suffix_append base.data s.data).isInfix
  simp [Infra.carriesSuffix, strContains, String.data_append, h]

/-- **C2 (counterexample).** Not every resource name of a run carries the
run's deployment suffix: at the concrete suffix `20250101-abcdef`, the list
of names the run creates or reuses contains names (the table `Inventory`,
the topic `NoStock`) without the suffix. -/
theorem C2_counterexample_fixed_names :
    ¬ (∀ n ∈ Infra.runResourceNames "20250101-abcdef",
        Infra.carriesSuffix n "20250101-abcdef" = true) := by
  decide

/-- **C2 (amended).** Every per-run resource name except the table and the
topic carries the run's deployment suffix: both bucket names, all three
handler names and the API name contain the suffix, while the table name is
the fixed string `Inventory` and the topic name the fixed string `NoStock`
in every run. -/
theorem C2_suffix_amended (s : String) :
    Infra.carriesSuffix (Infra.ingestBucketName s) s = true ∧
    Infra.carriesSuffix (Infra.webBucketName s) s = true ∧
    Infra.carriesSuffix (Infra.lambdaAName s) s = true ∧
    Infra.carriesSuffix (Infra.lambdaBName s) s = true ∧
    Infra.carriesSuffix (Infra.lambdaCName s) s = true ∧
    Infra.carriesSuffix (Infra.apiName s) s = true ∧
    Infra.TABLE_NAME = "Inventory" ∧ Infra.topicName = "NoStock" :=
  ⟨carriesSuffix_append (Infra.INGEST_BUCKET_BASE ++ "-") s,
   carriesSuffix_append (Infra.WEB_BUCKET_BASE ++ "-") s,
   carriesSuffix_append (Infra.LAMBDA_A_NAME ++ "-") s,
   carriesSuffix_append (Infra.LAMBDA_B_NAME ++ "-") s,
   carriesSuffix_append (Infra.LAMBDA_C_NAME ++ "-") s,
   carriesSuffix_append "inventory-api-" s, rfl, rfl⟩

/-! Frame lemmas: no provisioning step before `create_api` reads or writes
the API list or the API id counter. -/

theorem ensure_bucket_apis (w : Infra.World) (n : String) :
    (Infra.ensure_bucket w n).apis = w.apis := by
  unfold Infra.ensure_bucket Infra.create_bucket; split <;> rfl

theorem ensure_bucket_nextApiId (w : Infra.World) (n : String) :
    (Infra.ensure_bucket w n).nextApiId = w.nextApiId := by
  unfold Infra.ensure_bucket Infra.create_bucket; split <;> rfl

theorem ensure_table_apis (w : Infra.World) (n : String) :
    (Infra.ensure_dynamodb_table w n).1.apis = w.apis := by
  show (if w.tables.contains n then w
    else { w with tables := w.tables ++ [n] }).apis = w.apis
  split <;> rfl

theorem ensure_table_nextApiId (w : Infra.World) (n : String) :
    (Infra.ensure_dynamodb_table w n).1.nextApiId = w.nextApiId := by
  show (if w.tables.contains n then w
    else { w with tables := w.tables ++ [n] }).nextApiId = w.nextApiId
  split <;> rfl

theorem ensure_topic_apis (w : Infra.World) (n : String) :
    (Infra.ensure_sns_topic_and_subscribe w n).1.apis = w.apis := by
  unfold Infra.ensure_sns_topic_and_subscribe
  rcases h : w.topicArns.find? (fun t => strEndsWith t (":" ++ n)) with _ | a
    <;> simp [h]

theorem ensure_topic_nextApiId (w : Infra.World) (n : String) :
    (Infra.ensure_sns_topic_and_subscribe w n).1.nextApiId = w.nextApiId := by
  unfold Infra.ensure_sns_topic_and_subscribe
  rcases h : w.topicArns.find? (fun t => strEndsWith t (":" ++ n)) with _ | a
    <;> simp [h]

theorem ensure_lambda_apis (w : Infra.World) (n : String) :
    (Infra.ensure_lambda w n).apis = w.apis := by
  unfold Infra.ensure_lambda; split <;> rfl

theorem ensure_lambda_nextApiId (w : Infra.World) (n : String) :
    (Infra.ensure_lambda w n).nextApiId = w.nextApiId := by
  unfold Infra.ensure_lambda; split <;> rfl

theorem ensure_trigger_apis (w : Infra.World) (s f : String) (e : Bool)
    (b : Nat) : (Infra.ensure_dynamodb_stream_trigger w s f e b).1.apis
      = w.apis := by
  unfold Infra.ensure_dynamodb_stream_trigger
  rcases h : Infra.list_event_source_mappings w s f with _ | ⟨m, rest⟩ <;>
    simp [h, Infra.update_event_source_mapping,
      Infra.create_event_source_mapping]

theorem ensure_trigger_nextApiId (w : Infra.World) (s f : String) (e : Bool)
    (b : Nat) : (Infra.ensure_dynamodb_stream_trigger w s f e b).1.nextApiId
      = w.nextApiId := by
  unfold Infra.ensure_dynamodb_stream_trigger
  rcases h : Infra.list_event_source_mappings w s f with _ | ⟨m, rest⟩ <;>
    simp [h, Infra.update_event_source_mapping,
      Infra.create_event_source_mapping]

theorem saveRegistry_apis (w : Infra.World) :
    (Infra.saveRegistry w).apis = w.apis := rfl

theorem saveRegistry_nextApiId (w : Infra.World) :
    (Infra.saveRegistry w).nextApiId = w.nextApiId := rfl

/-- With the role present, a provisioning run succeeds and appends exactly
one HTTP API — named from the suffix, with the next fresh id — whatever
APIs already exist. -/
theorem provisionMain_found_apis (env : Infra.Env) (arn : String)
    (w : Infra.World) (s : String) (h : env.roleLookup = .found arn) :
    (Infra.provisionMain env w s).2 = .ok () ∧
    (Infra.provisionMain env w s).1.apis
      = w.apis ++ [(w.nextApiId, Infra.apiName s)] ∧
    (Infra.provisionMain env w s).1.nextApiId = w.nextApiId + 1 := by
  cases env with
  | mk rl =>
    cases h
    refine ⟨rfl, ?_, ?_⟩ <;>
      simp [Infra.provisionMain, Infra.labrole_arn, Infra.create_api,
        saveRegistry_apis, saveRegistry_nextApiId,
        ensure_trigger_apis, ensure_trigger_nextApiId,
        ensure_lambda_apis, ensure_lambda_nextApiId,
        ensure_bucket_apis, ensure_bucket_nextApiId,
        ensure_topic_apis, ensure_topic_nextApiId,
        ensure_table_apis, ensure_table_nextApiId, Infra.saveRegistry]

/-- **C6.** On every provisioning run with the role present, the HTTP API
is created unconditionally — one new API entry is appended whatever the
existing state, with no existence check — so a second run with the same
configuration yields a second API with a distinct identifier. -/
theorem C6_api_created_unconditionally (env : Infra.Env) (arn : String)
    (w : Infra.World) (s : String) (h : env.roleLookup = .found arn) :
    (Infra.provisionMain env w s).2 = .ok () ∧
    (Infra.provisionMain env w s).1.apis
      = w.apis ++ [(w.nextApiId, Infra.apiName s)] ∧
    (Infra.provisionMain env (Infra.provisionMain env w s).1 s).1.apis
      = w.apis ++ [(w.nextApiId, Infra.apiName s),
                   (w.nextApiId + 1, Infra.apiName s)] ∧
    w.nextApiId ≠ w.nextApiId + 1 := by
  obtain ⟨h1, h2, h3⟩ := provisionMain_found_apis env arn w s h
  obtain ⟨h1', h2', h3'⟩ :=
    provisionMain_found_apis env arn (Infra.provisionMain env w s).1 s h
  refine ⟨h1, h2, ?_, by omega⟩
  rw [h2', h2, h3]
  simp

/-- Witness for C6 at a concrete environment, world and suffix. -/
theorem C6_api_created_unconditionally_witness :
    (Infra.provisionMain ⟨.found "arn:aws:iam::123456789012:role/LabRole"⟩
      Infra.World.empty "20250101-abcdef").2 = .ok () ∧
    (Infra.provisionMain ⟨.found "arn:aws:iam::123456789012:role/LabRole"⟩
      Infra.World.empty "20250101-abcdef").1.apis
      = Infra.World.empty.apis ++
          [(Infra.World.empty.nextApiId, Infra.apiName "20250101-abcdef")] ∧
    (Infra.provisionMain ⟨.found "arn:aws:iam::123456789012:role/LabRole"⟩
      (Infra.provisionMain ⟨.found "arn:aws:iam::123456789012:role/LabRole"⟩
        Infra.World.empty "20250101-abcdef").1 "20250101-abcdef").1.apis
      = Infra.World.empty.apis ++
          [(Infra.World.empty.nextApiId, Infra.apiName "20250101-abcdef"),
           (Infra.World.empty.nextApiId + 1, Infra.apiName "20250101-abcdef")] ∧
    Infra.World.empty.nextApiId ≠ Infra.World.empty.nextApiId + 1 :=
  C6_api_created_unconditionally
    ⟨.found "arn:aws:iam::123456789012:role/LabRole"⟩
    "arn:aws:iam::123456789012:role/LabRole" Infra.World.empty
    "20250101-abcdef" rfl

/-! Helper lemmas about the event-source-mapping update. -/

theorem esmUpd_uuid (u : Nat) (e : Bool) (b : Nat) (m : Infra.Mapping) :
    (Infra.esmUpd u e b m).uuid = m.uuid := by
  unfold Infra.esmUpd; split <;> rfl

theorem esmUpd_pred (u : Nat) (e : Bool) (b : Nat) (m : Infra.Mapping)
    (s f : String) :
    ((Infra.esmUpd u e b m).eventSourceArn == s &&
      (Infra.esmUpd u e b m).functionName == f)
      = (m.eventSourceArn == s && m.functionName == f) := by
  unfold Infra.esmUpd; split <;> rfl

theorem esmUpd_idem (u : Nat) (e : Bool) (b : Nat) (m : Infra.Mapping) :
    Infra.esmUpd u e b (Infra.esmUpd u e b m) = Infra.esmUpd u e b m := by
  unfold Infra.esmUpd
  by_cases h : (m.uuid == u) = true <;> simp [h]

/-- Updating a mapping's enabled/batch-size fields commutes with listing
the mappings of a (stream, function) pair. -/
theorem list_esm_update (w : Infra.World) (u : Nat) (e : Bool) (b : Nat)
    (s f : String) :
    Infra.list_event_source_mappings
        (Infra.update_event_source_mapping w u e b) s f
      = (Infra.list_event_source_mappings w s f).map (Infra.esmUpd u e b) := by
  unfold Infra.list_event_source_mappings Infra.update_event_source_mapping
  rw [List.filter_map]
  exact congrArg _ (List.filter_congr (fun m _ => esmUpd_pred u e b m s f))

/-- When no mapping matches, the wiring takes the create branch. -/
theorem ensure_trigger_eq_of_nil (w : Infra.World) (s f : String) (e : Bool)
    (b : Nat) (h : Infra.list_event_source_mappings w s f = []) :
    Infra.ensure_dynamodb_stream_trigger w s f e b
      = Infra.create_event_source_mapping w s f e b := by
  unfold Infra.ensure_dynamodb_stream_trigger; rw [h]

/-- When a mapping matches, the wiring updates the first match in place. -/
theorem ensure_trigger_eq_of_cons (w : Infra.World) (s f : String) (e : Bool)
    (b : Nat) (m : Infra.Mapping) (rest : List Infra.Mapping)
    (h : Infra.list_event_source_mappings w s f = m :: rest) :
    Infra.ensure_dynamodb_stream_trigger w s f e b
      = (Infra.update_event_source_mapping w m.uuid e b, m.uuid) := by
  unfold Infra.ensure_dynamodb_stream_trigger; rw [h]

/-- **C5.** The stream-trigger wiring is an idempotent upsert: when a
mapping for the (stream, function) pair exists, it updates that mapping's
enabled/batch-size fields in place — the mapping list is only mapped over,
its length unchanged — and returns the existing mapping's UUID; when none
exists it creates exactly one mapping with starting position `LATEST`; and
a second run with the same arguments returns the same UUID, creates
nothing, and leaves the pair's matching-mapping set unchanged. -/
theorem C5_stream_trigger_idempotent_upsert (w : Infra.World)
    (s f : String) (e : Bool) (b : Nat) :
    (∀ m rest, Infra.list_event_source_mappings w s f = m :: rest →
      (Infra.ensure_dynamodb_stream_trigger w s f e b).2 = m.uuid ∧
      (Infra.ensure_dynamodb_stream_trigger w s f e b).1.mappings
        = w.mappings.map (Infra.esmUpd m.uuid e b) ∧
      (Infra.ensure_dynamodb_stream_trigger w s f e b).1.mappings.length
        = w.mappings.length) ∧
    (Infra.list_event_source_mappings w s f = [] →
      (Infra.ensure_dynamodb_stream_trigger w s f e b).1.mappings
        = w.mappings ++ [⟨w.nextUuid, s, f, e, b, "LATEST"⟩] ∧
      (Infra.ensure_dynamodb_stream_trigger w s f e b).2 = w.nextUuid ∧
      Infra.list_event_source_mappings
          (Infra.ensure_dynamodb_stream_trigger w s f e b).1 s f
        = [⟨w.nextUuid, s, f, e, b, "LATEST"⟩]) ∧
    ((Infra.ensure_dynamodb_stream_trigger
        (Infra.ensure_dynamodb_stream_trigger w s f e b).1 s f e b).2
      = (Infra.ensure_dynamodb_stream_trigger w s f e b).2 ∧
     (Infra.ensure_dynamodb_stream_trigger
        (Infra.ensure_dynamodb_stream_trigger w s f e b).1 s f
          e b).1.mappings.length
      = (Infra.ensure_dynamodb_stream_trigger w s f e b).1.mappings.length ∧
     Infra.list_event_source_mappings
        (Infra.ensure_dynamodb_stream_trigger
          (Infra.ensure_dynamodb_stream_trigger w s f e b).1 s f e b).1 s f
      = Infra.list_event_source_mappings
          (Infra.ensure_dynamodb_stream_trigger w s f e b).1 s f) := by
  cases hl : Infra.list_event_source_mappings w s f with
  | nil =>
    have h1 := ensure_trigger_eq_of_nil w s f e b hl
    have hnew : Infra.list_event_source_mappings
        (Infra.ensure_dynamodb_stream_trigger w s f e b).1 s f
        = [⟨w.nextUuid, s, f, e, b, "LATEST"⟩] := by
      rw [h1]
      unfold Infra.list_event_source_mappings at hl ⊢
      unfold Infra.create_event_source_mapping
      simp only [List.filter_append, hl]
      simp
    refine ⟨fun m rest h => List.noConfusion h,
      fun _ => ⟨(by rw [h1]; rfl), (by rw [h1]; rfl), hnew⟩, ?_⟩
    have h2 := ensure_trigger_eq_of_cons
      (Infra.ensure_dynamodb_stream_trigger w s f e b).1 s f e b
      ⟨w.nextUuid, s, f, e, b, "LATEST"⟩ [] hnew
    refine ⟨(by rw [h2, h1]; rfl), ?_, ?_⟩
    · rw [h2]
      unfold Infra.update_event_source_mapping
      simp
    · rw [h2]
      show Infra.list_event_source_mappings
        (Infra.update_event_source_mapping _ _ e b) s f = _
      rw [list_esm_update, hnew]
      simp [Infra.esmUpd]
  | cons m rest =>
    have h1 := ensure_trigger_eq_of_cons w s f e b m rest hl
    have hfilter1 : Infra.list_event_source_mappings
        (Infra.ensure_dynamodb_stream_trigger w s f e b).1 s f
        = Infra.esmUpd m.uuid e b m :: rest.map (Infra.esmUpd m.uuid e b) := by
      rw [h1]
      show Infra.list_event_source_mappings
        (Infra.update_event_source_mapping w m.uuid e b) s f = _
      rw [list_esm_update, hl]
      rfl
    refine ⟨fun m' rest' h => ?_, fun h => List.noConfusion h, ?_⟩
    · have hm : m = m' := by injection h
      subst hm
      exact ⟨(by rw [h1]), (by rw [h1]; rfl),
        (by rw [h1]; simp [Infra.update_event_source_mapping])⟩
    have h2 := ensure_trigger_eq_of_cons
      (Infra.ensure_dynamodb_stream_trigger w s f e b).1 s f e b
      (Infra.esmUpd m.uuid e b m) (rest.map (Infra.esmUpd m.uuid e b)) hfilter1
    refine ⟨(by rw [h2, h1, esmUpd_uuid]), ?_, ?_⟩
    · rw [h2]
      unfold Infra.update_event_source_mapping
      simp
    · rw [h2]
      show Infra.list_event_source_mappings
        (Infra.update_event_source_mapping _ (Infra.esmUpd m.uuid e b m).uuid
          e b) s f = _
      rw [esmUpd_uuid, list_esm_update, hfilter1]
      rw [← List.map_cons, List.map_map]
      exact List.map_congr_left (fun x _ => esmUpd_idem m.uuid e b x)

/-- Witness for C5 at a concrete state with no existing mapping: the first
run creates the single `LATEST` mapping with UUID 0, and the second run
returns the same UUID over an unchanged matching set. -/
theorem C5_stream_trigger_idempotent_upsert_witness :
    ((Infra.ensure_dynamodb_stream_trigger Infra.World.empty "str-arn"
        "notify_low_stock-x" true 10).1.mappings
      = Infra.World.empty.mappings ++
          [⟨Infra.World.empty.nextUuid, "str-arn", "notify_low_stock-x",
            true, 10, "LATEST"⟩] ∧
     (Infra.ensure_dynamodb_stream_trigger Infra.World.empty "str-arn"
        "notify_low_stock-x" true 10).2 = Infra.World.empty.nextUuid ∧
     Infra.list_event_source_mappings
        (Infra.ensure_dynamodb_stream_trigger Infra.World.empty "str-arn"
          "notify_low_stock-x" true 10).1 "str-arn" "notify_low_stock-x"
       = [⟨Infra.World.empty.nextUuid, "str-arn", "notify_low_stock-x",
           true, 10, "LATEST"⟩]) ∧
    (Infra.ensure_dynamodb_stream_trigger
        (Infra.ensure_dynamodb_stream_trigger Infra.World.empty "str-arn"
          "notify_low_stock-x" true 10).1 "str-arn" "notify_low_stock-x"
        true 10).2
      = (Infra.ensure_dynamodb_stream_trigger Infra.World.empty "str-arn"
          "notify_low_stock-x" true 10).2 :=
  ⟨(C5_stream_trigger_idempotent_upsert Infra.World.empty "str-arn"
      "notify_low_stock-x" true 10).2.1 rfl,
   (C5_stream_trigger_idempotent_upsert Infra.World.empty "str-arn"
      "notify_low_stock-x" true 10).2.2.1⟩

/-! Normalization of decimal values under `convert_decimal`. -/

mutual

theorem convert_decimal_normalized : ∀ v : GetInventoryApi.DVal,
    GetInventoryApi.jvalNormalized (GetInventoryApi.convert_decimal v) = true
  | .str s => rfl
  | .dec q => by
      by_cases h : q.den = 1 <;>
        simp [GetInventoryApi.convert_decimal,
          GetInventoryApi.jvalNormalized, h]
  | .list l => by
      simp [GetInventoryApi.convert_decimal, GetInventoryApi.jvalNormalized,
        convertList_normalized l]
  | .dict d => by
      simp [GetInventoryApi.convert_decimal, GetInventoryApi.jvalNormalized,
        convertDict_normalized d]

theorem convertList_normalized : ∀ l : List GetInventoryApi.DVal,
    GetInventoryApi.jvalNormalizedList (GetInventoryApi.convertList l) = true
  | [] => rfl
  | v :: vs => by
      simp [GetInventoryApi.convertList, GetInventoryApi.jvalNormalizedList,
        convert_decimal_normalized v, convertList_normalized vs]

theorem convertDict_normalized : ∀ d : List (String × GetInventoryApi.DVal),
    GetInventoryApi.jvalNormalizedDict (GetInventoryApi.convertDict d) = true
  | [] => rfl
  | (k, v) :: kvs => by
      simp [GetInventoryApi.convertDict, GetInventoryApi.jvalNormalizedDict,
        convert_decimal_normalized v, convertDict_normalized kvs]

end

/-- **C4 (counterexample).** The query handler does not branch on mere
*presence* of the path parameter `store` but on Python truthiness: for the
concrete event whose `pathParameters` is `{"store": ""}` — `store` present
with value `""` — the handler performs a scan and returns the full table,
not the rows matching partition key `""` as the claim requires (the claim's
query result here would be empty). -/
theorem C4_truthiness_counterexample :
    (((GetInventoryApi.GetEvent.mk
        (some [("store", "")])).pathParameters.getD []).lookup "store"
      = some "") ∧
    (GetInventoryApi.lambda_handler
        [[("Store", GetInventoryApi.DVal.str "StoreA")]]
        ⟨some [("store", "")]⟩).body
      ≠ GetInventoryApi.convert_decimal (.list
          ((GetInventoryApi.queryByStore
            [[("Store", GetInventoryApi.DVal.str "StoreA")]] "").map
              .dict)) := by
  refine ⟨rfl, fun h => ?_⟩
  have h' : GetInventoryApi.JVal.list
      [GetInventoryApi.JVal.dict
        [("Store", GetInventoryApi.JVal.str "StoreA")]]
      = GetInventoryApi.JVal.list [] := h
  injection h' with h''
  exact List.noConfusion h''

/-- **C4 (amended).** For every table and request event: if the path
parameter `store` is absent *or present but empty* the handler scans and
the body is the converted full table; if `store` is present and non-empty
the handler queries by partition-key equality on `Store` and the body is
the converted query result; the query returns exactly the rows whose
`Store` attribute is the string `store` and the scan returns all rows; the
status code is 200; and every numeric-decimal value in the body is
normalized — integral decimals to integer JSON numbers, non-integral ones
to floating-point JSON numbers. -/
theorem C4_query_handler_amended (tbl : List GetInventoryApi.Item)
    (event : GetInventoryApi.GetEvent) :
    (∀ s, (event.pathParameters.getD []).lookup "store" = some s → s ≠ "" →
      (GetInventoryApi.lambda_handler tbl event).body
        = GetInventoryApi.convert_decimal (.list
            ((GetInventoryApi.queryByStore tbl s).map .dict))) ∧
    ((event.pathParameters.getD []).lookup "store" = none ∨
     (event.pathParameters.getD []).lookup "store" = some "" →
      (GetInventoryApi.lambda_handler tbl event).body
        = GetInventoryApi.convert_decimal (.list
            ((GetInventoryApi.scan tbl).map .dict))) ∧
    (∀ s it, it ∈ GetInventoryApi.queryByStore tbl s ↔
      it ∈ tbl ∧ GetInventoryApi.dvalIsStr (it.lookup "Store") s = true) ∧
    GetInventoryApi.scan tbl = tbl ∧
    (GetInventoryApi.lambda_handler tbl event).statusCode = 200 ∧
    GetInventoryApi.jvalNormalized
      (GetInventoryApi.lambda_handler tbl event).body = true := by
  refine ⟨fun s hs hne => ?_, fun hsc => ?_, fun s it => ?_, rfl, rfl, ?_⟩
  · have ht : GetInventoryApi.truthy (some s) = true := by
      simpa [GetInventoryApi.truthy] using hne
    simp [GetInventoryApi.lambda_handler, hs, ht]
  · rcases hsc with hn | he
    · simp [GetInventoryApi.lambda_handler, hn, GetInventoryApi.truthy]
    · simp [GetInventoryApi.lambda_handler, he, GetInventoryApi.truthy]
  · simp [GetInventoryApi.queryByStore, List.mem_filter]
  · exact convert_decimal_normalized _

/-- Witness for C4 at a concrete table and event: a present, non-empty
`store` yields the converted query result, which is normalized. -/
theorem C4_query_handler_amended_witness :
    (GetInventoryApi.lambda_handler
        [[("Store", GetInventoryApi.DVal.str "StoreA"),
          ("Count", GetInventoryApi.DVal.dec 3)],
         [("Store", GetInventoryApi.DVal.str "StoreB"),
          ("Count", GetInventoryApi.DVal.dec 10)]]
        ⟨some [("store", "StoreA")]⟩).body
      = GetInventoryApi.convert_decimal (.list
          ((GetInventoryApi.queryByStore
            [[("Store", GetInventoryApi.DVal.str "StoreA"),
              ("Count", GetInventoryApi.DVal.dec 3)],
             [("Store", GetInventoryApi.DVal.str "StoreB"),
              ("Count", GetInventoryApi.DVal.dec 10)]] "StoreA").map
            .dict)) ∧
    GetInventoryApi.jvalNormalized
      (GetInventoryApi.lambda_handler
        [[("Store", GetInventoryApi.DVal.str "StoreA"),
          ("Count", GetInventoryApi.DVal.dec 3)],
         [("Store", GetInventoryApi.DVal.str "StoreB"),
          ("Count", GetInventoryApi.DVal.dec 10)]]
        ⟨some [("store", "StoreA")]⟩).body = true :=
  ⟨(C4_query_handler_amended _ _).1 "StoreA" rfl (by decide),
   (C4_query_handler_amended _ _).2.2.2.2.2⟩

/-- **C9.** Teardown's access-policy cleanup on the shared execution role:
a managed policy stays attached iff its name does not contain
`AWSLambdaBasicExecutionRole` (so only matching ones are detached), an
inline policy survives iff it does not match the `PolicyA-`/`PolicyB-`/
`PolicyC-` naming convention (so only workflow-named ones are deleted),
and the role itself — its name and its presence — is untouched. -/
theorem C9_iam_cleanup_frame (r : Infra.Role) :
    (Infra.delete_iam_policies r).name = r.name ∧
    (Infra.delete_iam_policies r).present = r.present ∧
    (∀ p, p ∈ (Infra.delete_iam_policies r).attachedPolicies ↔
      p ∈ r.attachedPolicies ∧
        strContains p "AWSLambdaBasicExecutionRole" = false) ∧
    (∀ p, p ∈ (Infra.delete_iam_policies r).inlinePolicies ↔
      p ∈ r.inlinePolicies ∧ Infra.isWorkflowInlinePolicy p = false) := by
  refine ⟨rfl, rfl, fun p => ?_, fun p => ?_⟩ <;>
    simp [Infra.delete_iam_policies, List.mem_filter]

/-- Witness for C9 on a concrete role: the basic-execution policy is
detached, an unrelated managed policy and an unrelated inline policy
survive, a `PolicyA-` inline policy is deleted, and the role's name and
presence are unchanged. -/
theorem C9_iam_cleanup_frame_witness :
    (Infra.delete_iam_policies
      ⟨"LabRole", true, ["AWSLambdaBasicExecutionRole", "OtherPolicy"],
        ["PolicyA-20250101", "CustomInline"]⟩).name = "LabRole" ∧
    "OtherPolicy" ∈ (Infra.delete_iam_policies
      ⟨"LabRole", true, ["AWSLambdaBasicExecutionRole", "OtherPolicy"],
        ["PolicyA-20250101", "CustomInline"]⟩).attachedPolicies ∧
    "AWSLambdaBasicExecutionRole" ∉ (Infra.delete_iam_policies
      ⟨"LabRole", true, ["AWSLambdaBasicExecutionRole", "OtherPolicy"],
        ["PolicyA-20250101", "CustomInline"]⟩).attachedPolicies ∧
    "CustomInline" ∈ (Infra.delete_iam_policies
      ⟨"LabRole", true, ["AWSLambdaBasicExecutionRole", "OtherPolicy"],
        ["PolicyA-20250101", "CustomInline"]⟩).inlinePolicies ∧
    "PolicyA-20250101" ∉ (Infra.delete_iam_policies
      ⟨"LabRole", true, ["AWSLambdaBasicExecutionRole", "OtherPolicy"],
        ["PolicyA-20250101", "CustomInline"]⟩).inlinePolicies :=
  ⟨(C9_iam_cleanup_frame _).1,
   ((C9_iam_cleanup_frame _).2.2.1 "OtherPolicy").mpr
     ⟨by decide, by decide⟩,
   fun hmem => absurd
     (((C9_iam_cleanup_frame _).2.2.1 "AWSLambdaBasicExecutionRole").mp
       hmem).2 (by decide),
   ((C9_iam_cleanup_frame _).2.2.2 "CustomInline").mpr
     ⟨by decide, by decide⟩,
   fun hmem => absurd
     (((C9_iam_cleanup_frame _).2.2.2 "PolicyA-20250101").mp hmem).2
     (by decide)⟩

/-- The notifier publishes exactly the messages of the records that are
insert events with count below 5, in record order. -/
theorem notify_eq_filter_map (rs : List NotifyLowStock.StreamRecord) :
    NotifyLowStock.lambda_handler rs =
      (rs.filter (fun x => x.eventName == "INSERT" && x.count < 5)).map
        NotifyLowStock.lowStockMsg := by
  induction rs with
  | nil => rfl
  | cons a t ih =>
      by_cases h1 : a.eventName = "INSERT"
      · by_cases h2 : a.count < 5
        · simpa [NotifyLowStock.lambda_handler, List.filter_cons, h1, h2]
            using ih
        · simpa [NotifyLowStock.lambda_handler, List.filter_cons, h1, h2]
            using ih
      · simpa [NotifyLowStock.lambda_handler, List.filter_cons, h1] using ih

/-- **C3.** For every batch of stream records: the notifier publishes one
message per insert record with count below the threshold 5 and nothing
else (so for an insert record with count 3 exactly one message referencing
its item, store and count is published, and for count 10 none), and for a
single insert record a message is published iff its count is below 5. -/
theorem C3_notifier_threshold (rs : List NotifyLowStock.StreamRecord)
    (r : NotifyLowStock.StreamRecord) (h : r.eventName = "INSERT") :
    NotifyLowStock.lambda_handler rs =
      (rs.filter (fun x => x.eventName == "INSERT" && x.count < 5)).map
        NotifyLowStock.lowStockMsg ∧
    (r.count = 3 →
      NotifyLowStock.lambda_handler [r] = [NotifyLowStock.lowStockMsg r]) ∧
    (r.count = 10 → NotifyLowStock.lambda_handler [r] = []) ∧
    (NotifyLowStock.lambda_handler [r] = [NotifyLowStock.lowStockMsg r] ↔
      r.count < 5) := by
  refine ⟨notify_eq_filter_map rs, fun h3 => ?_, fun h10 => ?_, ?_⟩
  · simp [NotifyLowStock.lambda_handler, h, h3]
  · simp [NotifyLowStock.lambda_handler, h, h10]
  · constructor
    · intro he
      by_contra hge
      simp [NotifyLowStock.lambda_handler, h, hge] at he
    · intro hlt
      simp [NotifyLowStock.lambda_handler, h, hlt]

/-- Witness for C3 at a concrete batch: a count-3 insert publishes its one
message (and the count-10 insert in the same batch publishes none). -/
theorem C3_notifier_threshold_witness :
    NotifyLowStock.lambda_handler
        [⟨"INSERT", "Widget", "StoreA", 3⟩, ⟨"INSERT", "Widget", "StoreB", 10⟩] =
      [NotifyLowStock.lowStockMsg ⟨"INSERT", "Widget", "StoreA", 3⟩] := by
  have h := (C3_notifier_threshold
    [⟨"INSERT", "Widget", "StoreA", 3⟩, ⟨"INSERT", "Widget", "StoreB", 10⟩]
    ⟨"INSERT", "Widget", "StoreA", 3⟩ rfl).1
  rw [h]; rfl

/-- On the first malformed row, the row loop stops with the error while the
writes of the preceding well-formed rows stand. -/
theorem processRows_abort (good : List LoadInventory.Row)
    (items : List LoadInventory.TableItem)
    (hgood : List.Forall₂ (fun r x => LoadInventory.parseRow r = some x)
      good items)
    (bad : LoadInventory.Row) (rest : List LoadInventory.Row)
    (hbad : LoadInventory.parseRow bad = none)
    (tbl : List LoadInventory.TableItem) :
    LoadInventory.processRows tbl (good ++ bad :: rest)
      = (items.foldl LoadInventory.put_item tbl, .error "row error") := by
  induction hgood generalizing tbl with
  | nil => simp [LoadInventory.processRows, hbad]
  | cons hr _ ih =>
      rw [List.cons_append]
      unfold LoadInventory.processRows
      rw [hr]
      exact ih _

/-- **C10.** The ingest handler's batch abort is not atomic: for every
batch whose (first) record names a CSV whose rows are `k-1` well-formed
rows followed by a first malformed row (missing column or non-numeric
count), the handler stops with the raised error — no later record of the
batch is processed — yet the table ends holding exactly the writes of the
`k-1` preceding well-formed rows; no rollback occurs. -/
theorem C10_ingest_abort_not_atomic
    (objects : String → String → List String)
    (tbl : List LoadInventory.TableItem) (bucket key : String)
    (good : List LoadInventory.Row) (items : List LoadInventory.TableItem)
    (bad : LoadInventory.Row) (rest : List LoadInventory.Row)
    (post : List LoadInventory.S3Record)
    (hgood : List.Forall₂ (fun r x => LoadInventory.parseRow r = some x)
      good items)
    (hbad : LoadInventory.parseRow bad = none)
    (hobj : LoadInventory.dictReader (objects bucket key)
      = good ++ bad :: rest) :
    LoadInventory.lambda_handler objects tbl (⟨bucket, key⟩ :: post)
      = (items.foldl LoadInventory.put_item tbl, .error "row error") := by
  unfold LoadInventory.lambda_handler
  rw [hobj, processRows_abort good items hgood bad rest hbad tbl]

/-- Witness for C10 at a concrete upload `store,item,count` /
`StoreA,Widget,3` / `StoreB,Widget,abc` / `StoreC,W,1`: the handler raises,
the well-formed first row is written and remains, and the row after the
malformed one is never written. -/
theorem C10_ingest_abort_not_atomic_witness :
    LoadInventory.lambda_handler
        (fun _ _ => ["store,item,count", "StoreA,Widget,3",
          "StoreB,Widget,abc", "StoreC,W,1"]) [] [⟨"bkt", "data.csv"⟩]
      = ([⟨"StoreA", "Widget", 3⟩], .error "row error") :=
  C10_ingest_abort_not_atomic
    (fun _ _ => ["store,item,count", "StoreA,Widget,3",
      "StoreB,Widget,abc", "StoreC,W,1"]) [] "bkt" "data.csv"
    [[("store", "StoreA"), ("item", "Widget"), ("count", "3")]]
    [⟨"StoreA", "Widget", 3⟩]
    [("store", "StoreB"), ("item", "Widget"), ("count", "abc")]
    [[("store", "StoreC"), ("item", "W"), ("count", "1")]] []
    (List.Forall₂.cons rfl List.Forall₂.nil) rfl rfl

/-- **C7.** For every candidate bucket name, the bucket existence probe
returns `true` exactly when the head request succeeds, and returns `false`
for every provider error — `"404"` (not found) and e.g. `"403"`
(inaccessible) alike; no provider error escapes the probe. -/
theorem C7_bucket_exists_probe (r : Infra.HeadResult) :
    (Infra.bucket_exists r = true ↔ r = .ok) ∧
    (∀ code, Infra.bucket_exists (.clientError code) = false) := by
  refine ⟨⟨fun h => ?_, fun h => by subst h; rfl⟩, fun code => by
    simp [Infra.bucket_exists]⟩
  cases r with
  | ok => rfl
  | clientError code => simp [Infra.bucket_exists] at h

/-- Witness for C7 at concrete inputs: the probe succeeds on `ok` and
returns `false` on the permission error `"403"`. -/
theorem C7_bucket_exists_probe_witness :
    Infra.bucket_exists .ok = true ∧
    Infra.bucket_exists (.clientError "403") = false :=
  ⟨(C7_bucket_exists_probe .ok).1.mpr rfl,
   (C7_bucket_exists_probe (.clientError "403")).2 "403"⟩
